import Mathlib

/-!
# applications/example_app/main.c

A shallow embedding of the example application: `main` asks whether the
network driver exists, fetches one URL through `network_get`, prints what it
got with `printf` and releases the buffer with `free`.

The three collaborators that `main` calls but does not define
(`driver_exists`, `network_get`, and the constant `DRIVER_NUM_NETWORK` of the
headers `tock.h` and `network.h`) are the fields of an environment `Env`.
Standard output and the sequence of collaborator calls are carried in an
explicit `World` that every call extends.
-/

namespace ExampleApp

/-- One `char` of memory or of standard output, as its value 0..255. -/
abbrev Byte := Nat

/-- A `char*`: an address, `0` being the null pointer. -/
abbrev Ptr := Nat

/-- The null pointer `NULL` of `stdlib.h`. -/
def NULL : Ptr := 0

/-- The bytes of an ASCII string literal of the source (without the
terminating zero byte). -/
def lit (s : String) : List Byte := s.toList.map Char.toNat

/-- The C string stored in the memory `m` that starts at some address: the
bytes read one after the other until the first zero byte, which is not part
of the string. This is the scan `printf` performs for a `%s` argument. -/
def cstr : List Byte → List Byte
  | [] => []
  | b :: m => if b = 0 then [] else b :: cstr m

/-- What `printf` writes for a format and its `%s` arguments (each argument
already read from memory as a C string): `%s` (bytes 37, 115) is replaced by
the next argument, every other byte is copied. Only the `%s` conversion
occurs in this program. -/
def format : List Byte → List (List Byte) → List Byte
  | [], _ => []
  | c :: fmt, args =>
    match c, fmt, args with
    | 37, 115 :: fmt2, a :: args2 => a ++ format fmt2 args2
    | c, fmt, args => c :: format fmt args

/-- A call main makes to a collaborator, with its arguments (and result,
where it has one). -/
inductive Event where
  | driver_exists (driver : Nat) (result : Bool)
  | network_get (url : List Byte) (len : Nat) (result : Ptr)
  | printf (text : List Byte)
  | free (p : Ptr)
  deriving DecidableEq, Repr

/-- Whether the event is a call to `network_get`. -/
def Event.isNetworkGet : Event → Bool
  | .network_get _ _ _ => true
  | _ => false

/-- Whether the event is a call to `free`. -/
def Event.isFree : Event → Bool
  | .free _ => true
  | _ => false

/-- Whether the event is a call to `printf`. -/
def Event.isPrintf : Event → Bool
  | .printf _ => true
  | _ => false

/-- The collaborators of `main`, which the source uses and does not define.

* `DRIVER_NUM_NETWORK`: the driver number constant of `network.h`;
* `driver_exists n`: the answer of the driver-presence query of `tock.h`;
* `network_get url len`: the pointer the fetch returns, `NULL` for failure;
* `mem p`: the bytes of memory from address `p` on, as they are when
  `network_get` has returned `p`;
* `terminated`: a buffer that `network_get` returns is a C string, that is,
  its memory holds a zero byte (what `%s` requires of its argument).

`main` calls each collaborator at most once, so the answer of a call is taken
as a function of its arguments. -/
structure Env where
  DRIVER_NUM_NETWORK : Nat
  driver_exists : Nat → Bool
  network_get : List Byte → Nat → Ptr
  mem : Ptr → List Byte
  terminated : ∀ url len, network_get url len ≠ NULL → 0 ∈ mem (network_get url len)

/-- What a run has done so far: the bytes written to standard output and the
collaborator calls made, oldest first. -/
structure World where
  stdout : List Byte
  trace : List Event
  deriving DecidableEq, Repr

/-- The world when `main` is entered: nothing written, nothing called. -/
def World.empty : World := ⟨[], []⟩

/-- The call `driver_exists(n)`: its result, and the world with the call
recorded. -/
def driver_exists (env : Env) (n : Nat) (w : World) : Bool × World :=
  (env.driver_exists n,
   { w with trace := w.trace ++ [Event.driver_exists n (env.driver_exists n)] })

/-- The call `network_get(url, len)`: the pointer returned, and the world
with the call recorded. -/
def network_get (env : Env) (url : List Byte) (len : Nat) (w : World) : Ptr × World :=
  (env.network_get url len,
   { w with trace := w.trace ++ [Event.network_get url len (env.network_get url len)] })

/-- The call `printf(fmt, args...)`, `args` being the memory at each `%s`
argument: the formatted text is appended to standard output and the call is
recorded. -/
def printf (fmt : List Byte) (args : List (List Byte)) (w : World) : World :=
  { stdout := w.stdout ++ format fmt (args.map cstr),
    trace := w.trace ++ [Event.printf (format fmt (args.map cstr))] }

/-- The call `free(p)`: recorded in the trace. -/
def free (p : Ptr) (w : World) : World :=
  { w with trace := w.trace ++ [Event.free p] }

/-- The function `main` of `applications/example_app/main.c`: the exit code
it returns and the world it leaves. -/
def main (env : Env) (w : World) : Int × World :=
  let (present, w) := driver_exists env env.DRIVER_NUM_NETWORK w
  if present then
    let (data, w) := network_get env (lit "http://www.google.com") 1024 w
    if data ≠ NULL then
      let w := printf (lit "Got: %s\n") [env.mem data] w
      let w := free data w
      (0, w)
    else
      let w := printf (lit "Out of memory\n") [] w
      (0, w)
  else
    let w := printf (lit "No network driver\n") [] w
    (0, w)

/-- The run of the program: `main` entered in the empty world. -/
def run (env : Env) : Int × World := main env World.empty

/-- The number of lines in a text written to standard output: the number of
newline bytes (10) it holds. -/
def lineCount (out : List Byte) : Nat := out.count 10

/-- The three behaviours as the specification lists them, each a pair of the
standard output and the number of releases, chosen by the driver-query result
and the fetch result alone (nothing for the absence signal, otherwise the
text `s` the buffer holds). Written from the specification's words, to be
compared with `run`. -/
def threeWay : Bool → Option (List Byte) → List Byte × Nat
  | false, _ => (lit "No network driver\n", 0)
  | true, none => (lit "Out of memory\n", 0)
  | true, some s => (lit "Got: " ++ s ++ lit "\n", 1)

/-- An environment without the network driver. -/
def envAbsent : Env where
  DRIVER_NUM_NETWORK := 0x30003
  driver_exists := fun _ => false
  network_get := fun _ _ => NULL
  mem := fun _ => []
  terminated := fun _ _ h => absurd rfl h

/-- An environment with the driver, in which the fetch fails. -/
def envFailed : Env where
  DRIVER_NUM_NETWORK := 0x30003
  driver_exists := fun n => n == 0x30003
  network_get := fun _ _ => NULL
  mem := fun _ => []
  terminated := fun _ _ h => absurd rfl h

/-- An environment with the driver, in which the fetch returns a buffer at
address `0x20004000` holding the given bytes followed by a zero byte. -/
def envBuffer (bytes : List Byte) : Env where
  DRIVER_NUM_NETWORK := 0x30003
  driver_exists := fun n => n == 0x30003
  network_get := fun _ _ => 0x20004000
  mem := fun _ => bytes ++ [0]
  terminated := fun _ _ _ => by simp

/-! ## Lemmas on the helpers -/

theorem format_got (a : List Byte) :
    format (lit "Got: %s\n") [a] = lit "Got: " ++ a ++ lit "\n" := by
  simp [format, lit]

theorem cstr_eq_takeWhile (m : List Byte) : cstr m = m.takeWhile (fun b => b != 0) := by
  induction m with
  | nil => rfl
  | cons b m ih =>
    by_cases hb : b = 0
    · simp [cstr, hb]
    · simp [cstr, hb, ih]

theorem cstr_append_zero (pre post : List Byte) (h : 0 ∉ pre) :
    cstr (pre ++ 0 :: post) = pre := by
  induction pre with
  | nil => simp [cstr]
  | cons b pre ih =>
    have hb : b ≠ 0 := fun hb => h (by simp [hb])
    have hpre : 0 ∉ pre := fun hm => h (List.mem_cons_of_mem _ hm)
    simp [cstr, hb, ih hpre]

theorem exists_first_zero (m : List Byte) (h : 0 ∈ m) :
    ∃ pre post, m = pre ++ 0 :: post ∧ 0 ∉ pre := by
  induction m with
  | nil => simp at h
  | cons b m ih =>
    by_cases hb : b = 0
    · exact ⟨[], m, by simp [hb], by simp⟩
    · have hm : 0 ∈ m := by
        rcases List.mem_cons.mp h with h0 | h0
        · exact absurd h0.symm hb
        · exact h0
      obtain ⟨pre, post, hm2, hpre⟩ := ih hm
      refine ⟨b :: pre, post, by simp [hm2], ?_⟩
      intro hmem
      rcases List.mem_cons.mp hmem with h0 | h0
      · exact hb h0.symm
      · exact hpre h0

/-! ## The three paths of `main` -/

theorem run_absent (env : Env) (h : env.driver_exists env.DRIVER_NUM_NETWORK = false) :
    run env = (0, ⟨lit "No network driver\n",
      [Event.driver_exists env.DRIVER_NUM_NETWORK false,
       Event.printf (lit "No network driver\n")]⟩) := by
  simp [run, main, driver_exists, printf, World.empty, h, format, lit]

theorem run_failed (env : Env) (h : env.driver_exists env.DRIVER_NUM_NETWORK = true)
    (hnull : env.network_get (lit "http://www.google.com") 1024 = NULL) :
    run env = (0, ⟨lit "Out of memory\n",
      [Event.driver_exists env.DRIVER_NUM_NETWORK true,
       Event.network_get (lit "http://www.google.com") 1024 NULL,
       Event.printf (lit "Out of memory\n")]⟩) := by
  simp only [run, main, driver_exists, network_get, h, hnull, ne_eq, not_true_eq_false,
    if_true, if_false]
  simp [printf, World.empty, format, lit]

theorem run_success (env : Env) (h : env.driver_exists env.DRIVER_NUM_NETWORK = true)
    (hbuf : env.network_get (lit "http://www.google.com") 1024 ≠ NULL) :
    run env = (0, ⟨lit "Got: " ++
        cstr (env.mem (env.network_get (lit "http://www.google.com") 1024)) ++ lit "\n",
      [Event.driver_exists env.DRIVER_NUM_NETWORK true,
       Event.network_get (lit "http://www.google.com") 1024
         (env.network_get (lit "http://www.google.com") 1024),
       Event.printf (lit "Got: " ++
         cstr (env.mem (env.network_get (lit "http://www.google.com") 1024)) ++ lit "\n"),
       Event.free (env.network_get (lit "http://www.google.com") 1024)]⟩) := by
  simp only [run, main, driver_exists, network_get, h, hbuf, ne_eq, not_false_eq_true,
    if_true]
  simp only [printf, free, World.empty, List.map, format_got, List.nil_append,
    List.cons_append]

/-! ## The claims -/

/-- C1: when `driver_exists(DRIVER_NUM_NETWORK)` answers false, `main` writes
exactly "No network driver\n" to standard output, and no call in its trace is
a call to `network_get` or to `free`. -/
theorem main_no_driver (env : Env)
    (hdrv : env.driver_exists env.DRIVER_NUM_NETWORK = false) :
    (run env).2.stdout = lit "No network driver\n" ∧
    ∀ e ∈ (run env).2.trace, e.isNetworkGet = false ∧ e.isFree = false := by
  rw [run_absent env hdrv]
  refine ⟨rfl, ?_⟩
  intro e he
  simp only [List.mem_cons, List.mem_singleton, List.not_mem_nil, or_false] at he
  rcases he with rfl | rfl <;> exact ⟨rfl, rfl⟩

theorem main_no_driver_witness :
    envAbsent.driver_exists envAbsent.DRIVER_NUM_NETWORK = false ∧
    (run envAbsent).2.stdout = lit "No network driver\n" ∧
    ∀ e ∈ (run envAbsent).2.trace, e.isNetworkGet = false ∧ e.isFree = false :=
  ⟨rfl, main_no_driver envAbsent rfl⟩

/-- C2: when the driver is present and `network_get` returns `NULL`, `main`
writes exactly "Out of memory\n" to standard output, nothing it prints starts
with or contains "Got: ", and no call in its trace is a call to `free`. -/
theorem main_out_of_memory (env : Env)
    (hdrv : env.driver_exists env.DRIVER_NUM_NETWORK = true)
    (hnull : env.network_get (lit "http://www.google.com") 1024 = NULL) :
    (run env).2.stdout = lit "Out of memory\n" ∧
    ¬ (lit "Got: " <:+: (run env).2.stdout) ∧
    (∀ t, Event.printf t ∈ (run env).2.trace → ¬ (lit "Got: " <:+: t)) ∧
    ∀ e ∈ (run env).2.trace, e.isFree = false := by
  rw [run_failed env hdrv hnull]
  refine ⟨rfl, ?_, ?_, ?_⟩
  · show ¬ (lit "Got: " <:+: lit "Out of memory\n")
    decide
  · intro t ht
    simp only [List.mem_cons, List.mem_singleton, List.not_mem_nil, or_false,
      Event.printf.injEq, reduceCtorEq, false_or] at ht
    subst ht
    decide
  · intro e he
    simp only [List.mem_cons, List.mem_singleton, List.not_mem_nil, or_false] at he
    rcases he with rfl | rfl | rfl <;> rfl

theorem main_out_of_memory_witness :
    envFailed.driver_exists envFailed.DRIVER_NUM_NETWORK = true ∧
    envFailed.network_get (lit "http://www.google.com") 1024 = NULL ∧
    (run envFailed).2.stdout = lit "Out of memory\n" ∧
    ¬ (lit "Got: " <:+: (run envFailed).2.stdout) ∧
    (∀ t, Event.printf t ∈ (run envFailed).2.trace → ¬ (lit "Got: " <:+: t)) ∧
    ∀ e ∈ (run envFailed).2.trace, e.isFree = false :=
  ⟨rfl, rfl, main_out_of_memory envFailed rfl rfl⟩

/-- C3: when the driver is present and `network_get` returns a buffer holding
the text `s` (the bytes of `s`, none of them zero, then the terminating zero
byte), the standard output of `main` is exactly "Got: ", then `s`, then a
newline; for `s` = "<html>...</html>" it is "Got: <html>...</html>\n". -/
theorem main_prints_buffer (env : Env) (s rest : List Byte)
    (hdrv : env.driver_exists env.DRIVER_NUM_NETWORK = true)
    (hbuf : env.network_get (lit "http://www.google.com") 1024 ≠ NULL)
    (hmem : env.mem (env.network_get (lit "http://www.google.com") 1024) = s ++ 0 :: rest)
    (hs : 0 ∉ s) :
    (run env).2.stdout = lit "Got: " ++ s ++ lit "\n" ∧
    (s = lit "<html>...</html>" → (run env).2.stdout = lit "Got: <html>...</html>\n") := by
  have hout : (run env).2.stdout = lit "Got: " ++ s ++ lit "\n" := by
    rw [run_success env hdrv hbuf, hmem, cstr_append_zero s rest hs]
  refine ⟨hout, ?_⟩
  intro hs2
  rw [hout, hs2]
  rfl

theorem main_prints_buffer_witness :
    (run (envBuffer (lit "<html>...</html>"))).2.stdout = lit "Got: <html>...</html>\n" :=
  (main_prints_buffer (envBuffer (lit "<html>...</html>")) (lit "<html>...</html>") []
    rfl (by decide) rfl (by decide)).2 rfl

/-- C4: when the driver is present and `network_get` returns a non-null
buffer, the trace of `main` holds exactly one `free` event, it is `free` of
the pointer `network_get` returned, and it comes after the `printf` of the
buffer's contents: the trace ends with that `printf` followed by that `free`,
and nothing before them is a `free`. -/
theorem main_frees_once (env : Env)
    (hdrv : env.driver_exists env.DRIVER_NUM_NETWORK = true)
    (hbuf : env.network_get (lit "http://www.google.com") 1024 ≠ NULL) :
    (run env).2.trace.filter Event.isFree =
      [Event.free (env.network_get (lit "http://www.google.com") 1024)] ∧
    (run env).2.trace.countP Event.isFree = 1 ∧
    ∃ before, (run env).2.trace = before ++
        [Event.printf (lit "Got: " ++
           cstr (env.mem (env.network_get (lit "http://www.google.com") 1024)) ++ lit "\n"),
         Event.free (env.network_get (lit "http://www.google.com") 1024)] ∧
      ∀ e ∈ before, e.isFree = false ∧ e.isPrintf = false := by
  rw [run_success env hdrv hbuf]
  refine ⟨rfl, rfl, [Event.driver_exists env.DRIVER_NUM_NETWORK true,
    Event.network_get (lit "http://www.google.com") 1024
      (env.network_get (lit "http://www.google.com") 1024)], rfl, ?_⟩
  intro e he
  simp only [List.mem_cons, List.mem_singleton, List.not_mem_nil, or_false] at he
  rcases he with rfl | rfl <;> exact ⟨rfl, rfl⟩

theorem main_frees_once_witness :
    (run (envBuffer (lit "hello"))).2.trace.filter Event.isFree = [Event.free 0x20004000] ∧
    (run (envBuffer (lit "hello"))).2.trace.countP Event.isFree = 1 ∧
    ∃ before, (run (envBuffer (lit "hello"))).2.trace = before ++
        [Event.printf (lit "Got: " ++ cstr (lit "hello" ++ [0]) ++ lit "\n"),
         Event.free 0x20004000] ∧
      ∀ e ∈ before, e.isFree = false ∧ e.isPrintf = false :=
  main_frees_once (envBuffer (lit "hello")) rfl (by decide)

/-- C5: whatever the driver-presence query answers and whatever
`network_get` returns (a buffer or `NULL`), `main` returns exit code 0. -/
theorem main_returns_zero (env : Env) (w : World) : (main env w).1 = 0 := by
  unfold main
  simp only
  split
  · split <;> rfl
  · rfl

/-- C6: when the driver is present, `main` calls `network_get` exactly once,
with the arguments ("http://www.google.com", 1024), whether the call returns
a buffer or `NULL`. -/
theorem main_fetches_once (env : Env)
    (hdrv : env.driver_exists env.DRIVER_NUM_NETWORK = true) :
    (run env).2.trace.filter Event.isNetworkGet =
      [Event.network_get (lit "http://www.google.com") 1024
        (env.network_get (lit "http://www.google.com") 1024)] ∧
    (run env).2.trace.countP Event.isNetworkGet = 1 := by
  by_cases hbuf : env.network_get (lit "http://www.google.com") 1024 = NULL
  · rw [run_failed env hdrv hbuf, hbuf]
    exact ⟨rfl, rfl⟩
  · rw [run_success env hdrv hbuf]
    exact ⟨rfl, rfl⟩

theorem main_fetches_once_witness :
    (run envFailed).2.trace.filter Event.isNetworkGet =
      [Event.network_get (lit "http://www.google.com") 1024 NULL] ∧
    (run envFailed).2.trace.countP Event.isNetworkGet = 1 :=
  main_fetches_once envFailed rfl

/-- C7, as stated, fails: "exactly one message line is printed per run" does
not hold for a buffer whose text holds a newline. With the driver present and
the buffer "a\nb" (then the zero byte), standard output is "Got: a\nb\n",
which is two lines. -/
theorem main_one_line_counterexample :
    (run (envBuffer (lit "a\nb"))).2.stdout = lit "Got: a\nb\n" ∧
    lineCount (run (envBuffer (lit "a\nb"))).2.stdout = 2 ∧
    ¬ (∀ env : Env, lineCount (run env).2.stdout = 1) := by
  have hout : (run (envBuffer (lit "a\nb"))).2.stdout = lit "Got: a\nb\n" := by
    rw [run_success (envBuffer (lit "a\nb")) rfl (by decide)]
    decide
  refine ⟨hout, ?_, ?_⟩
  · rw [hout]
    decide
  · intro hall
    have h1 := hall (envBuffer (lit "a\nb"))
    rw [hout] at h1
    revert h1
    decide

/-- C7, amended: for every environment `main` calls `printf` exactly once and
the text of that call is the whole standard output, and the run is exactly
one of three: driver absent, output the one line "No network driver\n", no
release; driver present and fetch `NULL`, output the one line
"Out of memory\n", no release; driver present and a buffer holding the text
`s` (the bytes before the buffer's first zero byte), output "Got: ", `s`,
newline, which is one line more than `s` holds newlines, and one release of
that buffer. In each case the output and the number of releases are the value
of `threeWay` at the driver-query result and the fetch result. -/
theorem main_three_behaviours (env : Env) :
    (run env).2.trace.countP Event.isPrintf = 1 ∧
    (run env).2.trace.filter Event.isPrintf = [Event.printf (run env).2.stdout] ∧
    ((env.driver_exists env.DRIVER_NUM_NETWORK = false ∧
        (∀ f, ((run env).2.stdout, (run env).2.trace.countP Event.isFree) =
          threeWay false f) ∧
        (run env).2.stdout = lit "No network driver\n" ∧
        lineCount (run env).2.stdout = 1 ∧
        (run env).2.trace.filter Event.isFree = []) ∨
     (env.driver_exists env.DRIVER_NUM_NETWORK = true ∧
        env.network_get (lit "http://www.google.com") 1024 = NULL ∧
        ((run env).2.stdout, (run env).2.trace.countP Event.isFree) =
          threeWay true none ∧
        (run env).2.stdout = lit "Out of memory\n" ∧
        lineCount (run env).2.stdout = 1 ∧
        (run env).2.trace.filter Event.isFree = []) ∨
     (env.driver_exists env.DRIVER_NUM_NETWORK = true ∧
        env.network_get (lit "http://www.google.com") 1024 ≠ NULL ∧
        (run env).2.trace.filter Event.isFree =
          [Event.free (env.network_get (lit "http://www.google.com") 1024)] ∧
        ∃ s rest,
          env.mem (env.network_get (lit "http://www.google.com") 1024) = s ++ 0 :: rest ∧
          0 ∉ s ∧
          ((run env).2.stdout, (run env).2.trace.countP Event.isFree) =
            threeWay true (some s) ∧
          (run env).2.stdout = lit "Got: " ++ s ++ lit "\n" ∧
          lineCount (run env).2.stdout = 1 + lineCount s)) := by
  cases hdrv : env.driver_exists env.DRIVER_NUM_NETWORK with
  | false =>
    rw [run_absent env hdrv]
    exact ⟨rfl, rfl, Or.inl ⟨rfl, fun _ => rfl, rfl, rfl, rfl⟩⟩
  | true =>
    by_cases hbuf : env.network_get (lit "http://www.google.com") 1024 = NULL
    · rw [run_failed env hdrv hbuf]
      exact ⟨rfl, rfl, Or.inr (Or.inl ⟨rfl, hbuf, rfl, rfl, rfl, rfl⟩)⟩
    · obtain ⟨s, rest, hmem, hs⟩ := exists_first_zero _ (env.terminated _ _ hbuf)
      rw [run_success env hdrv hbuf, hmem, cstr_append_zero s rest hs]
      refine ⟨rfl, rfl, Or.inr (Or.inr ⟨rfl, hbuf, rfl, s, rest, rfl, hs, rfl, rfl, ?_⟩)⟩
      show lineCount (lit "Got: " ++ s ++ lit "\n") = 1 + lineCount s
      simp [lineCount, lit, List.count_append, List.count_cons, Nat.add_comm]

/-- C8: when the driver is present and `network_get` returns a non-null
buffer, what `main` prints between "Got: " and the final newline is exactly
the bytes of the buffer that precede its first zero byte: the buffer splits
as `pre`, a zero byte, `post` with no zero byte in `pre`, and the standard
output is "Got: ", `pre`, newline, whatever `post` holds. In particular a
buffer whose first byte is zero gives "Got: \n". -/
theorem main_prints_up_to_zero (env : Env)
    (hdrv : env.driver_exists env.DRIVER_NUM_NETWORK = true)
    (hbuf : env.network_get (lit "http://www.google.com") 1024 ≠ NULL) :
    (∃ pre post,
      env.mem (env.network_get (lit "http://www.google.com") 1024) = pre ++ 0 :: post ∧
      0 ∉ pre ∧ (run env).2.stdout = lit "Got: " ++ pre ++ lit "\n") ∧
    (∀ pre post,
      env.mem (env.network_get (lit "http://www.google.com") 1024) = pre ++ 0 :: post →
      0 ∉ pre → (run env).2.stdout = lit "Got: " ++ pre ++ lit "\n") ∧
    (∀ post,
      env.mem (env.network_get (lit "http://www.google.com") 1024) = 0 :: post →
      (run env).2.stdout = lit "Got: \n") ∧
    (run env).2.stdout = lit "Got: " ++
      (env.mem (env.network_get (lit "http://www.google.com") 1024)).takeWhile
        (fun b => b != 0) ++ lit "\n" := by
  have hall : ∀ pre post,
      env.mem (env.network_get (lit "http://www.google.com") 1024) = pre ++ 0 :: post →
      0 ∉ pre → (run env).2.stdout = lit "Got: " ++ pre ++ lit "\n" := by
    intro pre post hmem hpre
    rw [run_success env hdrv hbuf, hmem, cstr_append_zero pre post hpre]
  refine ⟨?_, hall, ?_, ?_⟩
  · obtain ⟨pre, post, hmem, hpre⟩ := exists_first_zero _ (env.terminated _ _ hbuf)
    exact ⟨pre, post, hmem, hpre, hall pre post hmem hpre⟩
  · intro post hmem
    exact hall [] post hmem (by simp)
  · rw [run_success env hdrv hbuf, cstr_eq_takeWhile]

theorem main_prints_up_to_zero_witness :
    (run (envBuffer [104, 105, 0, 33])).2.stdout = lit "Got: hi\n" ∧
    (run (envBuffer [])).2.stdout = lit "Got: \n" :=
  ⟨(main_prints_up_to_zero (envBuffer [104, 105, 0, 33]) rfl (by decide)).2.1
      [104, 105] [33, 0] rfl (by decide),
   (main_prints_up_to_zero (envBuffer []) rfl (by decide)).2.2.1 [] rfl⟩

end ExampleApp
